import Mathlib

/-!
Verification development for the access2sqlite repository.

The repository holds two Python files, `src/access2sqlite.py` (CLI) and
`src/access2sqlite_gui.py` (GUI), each containing a copy of the class
`AccessToSQLite`.  This file gives a shallow embedding of that class:

* the Access source is modelled as a catalog of named/typed entries plus a
  list of tables, each table carrying its column names, its rows (cell values
  as integers, aligned with the column list) and an optional injected read
  error (`pyodbc`/`pandas` raising on any read of that table);
* the SQLite destination is an association list from table names to row
  lists; `DataFrame.to_sql` with `if_exists='replace'`/`'append'` becomes
  `destReplace`/`destAppend`;
* the row-reading queries built by `convert_table` are given their SQL
  meaning in `readChunk`; the driver's possible rejection of the
  `OFFSET ... ROWS FETCH NEXT ...` clause (the code's `except` handler checks
  `"OFFSET" in str(e)`) is modelled by the `supportsOffset` capability flag
  of the source, the raised message containing the substring `OFFSET`;
* the unbounded `while True:` loop of `convert_table` is embedded with an
  explicit fuel parameter; exhausting fuel is reported as a distinguished
  `fuelOut` outcome so that no theorem can silently depend on it.

The CLI file's class is embedded in namespace `A2S`, the GUI file's class
(whose `convert_table` additionally accepts a progress callback that may
raise, and whose `update_progress` computes the progress percentage) in
namespace `A2SGui`.
-/

/-- A row of a table: cell values aligned with the table's column list. -/
abbrev Row := List Int

/-- The SQLite destination database: table name to rows, in creation order. -/
abbrev DestDB := List (String × List Row)

/-- One entry of the Access catalog as returned by `cursor.tables()`:
a `table_name` and a `table_type` (such as `TABLE`, `VIEW`, `SYSTEM TABLE`). -/
structure CatEntry where
  tableName : String
  tableType : String
deriving DecidableEq, Repr

/-- One Access table: name, column names, rows, and an optional injected
failure: when `readError = some m`, every read touching this table raises an
exception with message `m`. -/
structure SourceTable where
  name : String
  columns : List String
  rows : List Row
  readError : Option String
deriving DecidableEq, Repr

/-- The Access source database. `listingFails` injects a failure of the
unfiltered `cursor.tables()` enumeration, raising at the call itself before
any row is yielded (pyodbc runs the catalog query when `tables()` is
called), which drives `get_table_names` to its fallback branch;
`supportsOffset` says whether the driver accepts the
`OFFSET ... ROWS FETCH NEXT ...` clause. -/
structure SourceDB where
  catalog : List CatEntry
  tables : List SourceTable
  listingFails : Bool
  supportsOffset : Bool
deriving DecidableEq, Repr

/-- Rows currently stored under a table name in the destination. -/
def destLookup (d : DestDB) (n : String) : Option (List Row) :=
  (d.find? (fun p => p.1 == n)).map (·.2)

/-- `df.to_sql(name, conn, if_exists='replace')`: create or overwrite. -/
def destReplace (d : DestDB) (n : String) (rows : List Row) : DestDB :=
  if (destLookup d n).isSome then
    d.map (fun p => if p.1 == n then (n, rows) else p)
  else d ++ [(n, rows)]

/-- `df.to_sql(name, conn, if_exists='append')`: append, creating if absent. -/
def destAppend (d : DestDB) (n : String) (rows : List Row) : DestDB :=
  if (destLookup d n).isSome then
    d.map (fun p => if p.1 == n then (p.1, p.2 ++ rows) else p)
  else d ++ [(n, rows)]

/-- Python string comparison as `sorted` uses it: lexicographic on the
sequences of code points. (`s₁.data < s₂.data` is exactly that order on the
character lists.) -/
def pyStrLe (a b : String) : Bool :=
  !(decide (b.data < a.data))

/-- Python `str.startswith`: the pattern's code points are a prefix of the
string's code points (`String.startsWith` has the same meaning, but is
defined by a byte-position loop that blocks definitional evaluation). -/
def pyStartsWith (s pat : String) : Bool :=
  pat.data.isPrefixOf s.data

/-- `has_id_column = 'ID' in columns or 'id' in columns`
(access2sqlite.py line 107, access2sqlite_gui.py line 114). -/
def hasIdColumn (cols : List String) : Bool :=
  cols.contains "ID" || cols.contains "id"

/-- Index of the column the Access query `[ID]` resolves to (Access column
names are case-insensitive, so a column named `ID` or `id` matches). -/
def idIdx (cols : List String) : Nat :=
  match cols.findIdx? (· == "ID") with
  | some i => i
  | none => (cols.findIdx? (· == "id")).getD 0

/-- Value of the identity column of a row. -/
def rowId (cols : List String) (r : Row) : Int :=
  r.getD (idIdx cols) 0

/-- `ORDER BY ID`: sort rows by their identity value. -/
def sortById (cols : List String) (l : List Row) : List Row :=
  List.insertionSort (fun a b => rowId cols a ≤ rowId cols b) l

/-- The Python check `"OFFSET" in str(e)` on an exception message. -/
def containsOFFSET (m : String) : Bool :=
  decide ("OFFSET".toList <:+: m.toList)

/-- Message of the driver error raised when the `OFFSET ... FETCH` clause is
not supported; the code's handler only looks for the substring `OFFSET`. -/
def offsetErrMsg : String := "Syntax error: OFFSET clause is not supported"

/-- Meaning of the query `pd.read_sql(query, access_conn)` executes for one
chunk (access2sqlite.py lines 113-125):
* on the first chunk the query is the unbounded `SELECT * FROM [T]`;
* with an identity column it is
  `SELECT * FROM [T] WHERE ID > offset ORDER BY ID LIMIT chunk_size`;
* otherwise `SELECT * FROM [T] OFFSET offset ROWS FETCH NEXT chunk_size
  ROWS ONLY`, which the driver rejects (message containing `OFFSET`) when it
  lacks that capability.
A table with an injected `readError` raises on every read. -/
def readChunk (so : Bool) (t : SourceTable) (hasId : Bool) (chunkSize : Nat)
    (offset : Int) (firstChunk : Bool) : Except String (List Row) :=
  match t.readError with
  | some m => .error m
  | none =>
    if firstChunk then .ok t.rows
    else if hasId then
      .ok ((sortById t.columns
              (t.rows.filter (fun r => offset < rowId t.columns r))).take chunkSize)
    else if so then
      .ok ((t.rows.drop offset.toNat).take chunkSize)
    else .error offsetErrMsg

/-- The `try/except` handler around `pd.read_sql` (access2sqlite.py lines
124-136): if the message mentions `OFFSET` and the table has no identity
column, the first chunk is retried as a plain unbounded `SELECT *` (which
raises again exactly when the table itself raises on read), and later chunks
`break` (encoded as an empty chunk); any other error is re-raised. -/
def dfExcept (so : Bool) (t : SourceTable) (hasId : Bool) (chunkSize : Nat)
    (offset : Int) (firstChunk : Bool) : Except String (List Row) :=
  match readChunk so t hasId chunkSize offset firstChunk with
  | .ok df => .ok df
  | .error m =>
    if containsOFFSET m && !hasId then
      if firstChunk then
        match t.readError with
        | some m2 => .error m2
        | none => .ok t.rows
      else .ok []
    else .error m

/-- How a `convert_table` call ended. -/
inductive ExitStatus where
  | ok
  | raised (msg : String)
  | fuelOut
deriving DecidableEq, Repr

/-- Outcome of the chunk loop of `convert_table`. -/
inductive LoopOut where
  | done (dest : DestDB) (writes : List (List Row)) (offset : Int)
  | raised (dest : DestDB) (writes : List (List Row)) (offset : Int) (msg : String)
  | fuelOut (dest : DestDB) (writes : List (List Row)) (offset : Int)
deriving DecidableEq, Repr

/-- Observable result of one `convert_table` call: final destination state,
the sequence of batch writes performed (first one with replace semantics,
the rest with append semantics), the final `offset` counter, whether each of
the two connections was closed, and how the call ended. -/
structure TableResult where
  dest : DestDB
  writes : List (List Row)
  rowsProcessed : Int
  accessClosed : Bool
  sqliteClosed : Bool
  status : ExitStatus
deriving DecidableEq, Repr

/-- Observable result of one `convert_all_tables` call: final destination
state and, per table in conversion order, the logged outcome. -/
structure RunResult where
  dest : DestDB
  events : List (String × ExitStatus)
deriving DecidableEq, Repr

/-- Table the name refers to, as resolved by the Access connection. -/
def findTable (db : SourceDB) (name : String) : Option SourceTable :=
  db.tables.find? (fun t => t.name == name)

namespace A2S

/-- `AccessToSQLite.get_table_names` (access2sqlite.py lines 60-83): on the
primary path, keep catalog entries of type `TABLE`/`VIEW` whose name does not
start with `MSys`; if the unfiltered enumeration raises, fall back to the
enumeration restricted to type `TABLE` with no further filtering; then
`sorted(list(set(tables)))`. -/
def getTableNames (db : SourceDB) : List String :=
  let tables :=
    if db.listingFails then
      (db.catalog.filter (fun e => e.tableType == "TABLE")).map (·.tableName)
    else
      (db.catalog.filter (fun e =>
        (e.tableType == "TABLE" || e.tableType == "VIEW")
          && !(pyStartsWith e.tableName "MSys"))).map (·.tableName)
  List.insertionSort (fun a b => pyStrLe a b = true) tables.dedup

/-- The `while True:` chunk loop of `AccessToSQLite.convert_table`
(access2sqlite.py lines 113-151), with explicit fuel. Arguments after the
chunk size: current `offset`, `first_chunk`, destination state, batch writes
performed so far, fuel. -/
def convertLoop (so : Bool) (t : SourceTable) (hasId : Bool) (chunkSize : Nat) :
    Int → Bool → DestDB → List (List Row) → Nat → LoopOut
  | offset, _, dest, ws, 0 => .fuelOut dest ws offset
  | offset, firstChunk, dest, ws, fuel+1 =>
    match dfExcept so t hasId chunkSize offset firstChunk with
    | .error m => .raised dest ws offset m
    | .ok df =>
      if df.isEmpty then .done dest ws offset
      else
        let dest' := if firstChunk then destReplace dest t.name df
                     else destAppend dest t.name df
        convertLoop so t hasId chunkSize (offset + df.length) false dest'
          (ws ++ [df]) fuel

/-- `AccessToSQLite.convert_table` (access2sqlite.py lines 85-160). Both
connections are opened first; a raise during the probe
(`SELECT TOP 1 * FROM [T]`) or the loop reaches the `except` block, which
logs and re-raises the original exception, leaving both connections open;
`close()` on both runs only after a normal loop exit. -/
def convertTable (db : SourceDB) (tableName : String) (chunkSize : Nat)
    (dest : DestDB) (fuel : Nat) : TableResult :=
  match findTable db tableName with
  | none =>
    { dest := dest, writes := [], rowsProcessed := 0,
      accessClosed := false, sqliteClosed := false,
      status := .raised ("no such table: " ++ tableName) }
  | some t =>
    match t.readError with
    | some m =>
      { dest := dest, writes := [], rowsProcessed := 0,
        accessClosed := false, sqliteClosed := false, status := .raised m }
    | none =>
      match convertLoop db.supportsOffset t (hasIdColumn t.columns) chunkSize
          0 true dest [] fuel with
      | .done d w off =>
        { dest := d, writes := w, rowsProcessed := off,
          accessClosed := true, sqliteClosed := true, status := .ok }
      | .raised d w off m =>
        { dest := d, writes := w, rowsProcessed := off,
          accessClosed := false, sqliteClosed := false, status := .raised m }
      | .fuelOut d w off =>
        { dest := d, writes := w, rowsProcessed := off,
          accessClosed := false, sqliteClosed := false, status := .fuelOut }

/-- The per-table loop of `AccessToSQLite.convert_all_tables`
(access2sqlite.py lines 172-178): each table is converted in turn; an
exception is logged and the loop continues with the next table. -/
def convertTables (db : SourceDB) (chunkSize : Nat) (fuel : Nat) :
    List String → DestDB → List (String × ExitStatus) → RunResult
  | [], dest, evs => { dest := dest, events := evs }
  | n :: rest, dest, evs =>
    let r := convertTable db n chunkSize dest fuel
    convertTables db chunkSize fuel rest r.dest (evs ++ [(n, r.status)])

/-- `AccessToSQLite.convert_all_tables` (access2sqlite.py lines 162-178). -/
def convertAllTables (db : SourceDB) (chunkSize : Nat) (dest : DestDB)
    (fuel : Nat) : RunResult :=
  convertTables db chunkSize fuel (getTableNames db) dest []

/-- The Python value `convert_all_tables` returns to its caller: the function
body has no `return` statement, so the call evaluates to `None`. -/
def convertAllTablesRet (db : SourceDB) (chunkSize : Nat) (dest : DestDB)
    (fuel : Nat) : Unit :=
  let _ := convertAllTables db chunkSize dest fuel
  ()

/-- `AccessToSQLite.get_database_info` (access2sqlite.py lines 180-208):
table names from `get_table_names`, and the total record count summed with
`SELECT COUNT(*)` per table, a per-table count failure being logged as a
warning and contributing nothing. -/
def getDatabaseInfo (db : SourceDB) : List String × Nat :=
  let tables := getTableNames db
  let total := tables.foldl (fun acc n =>
    match findTable db n with
    | none => acc
    | some t =>
      match t.readError with
      | some _ => acc
      | none => acc + t.rows.length) 0
  (tables, total)

end A2S

/-- A progress callback as passed to the GUI file's `convert_table`:
arguments are `table_name`, `rows_processed` (the updated `offset`),
`total_tables` and `current_table`; a result of `some m` models the callback
raising an exception with message `m` (as `update_progress` does when the
Stop button was pressed), `none` a normal return. -/
abbrev ProgressCB := String → Int → Nat → Nat → Option String

namespace A2SGui

/-- `AccessToSQLite.get_table_names` (access2sqlite_gui.py lines 64-87);
the method is textually identical to the CLI file's copy. -/
def getTableNames (db : SourceDB) : List String :=
  let tables :=
    if db.listingFails then
      (db.catalog.filter (fun e => e.tableType == "TABLE")).map (·.tableName)
    else
      (db.catalog.filter (fun e =>
        (e.tableType == "TABLE" || e.tableType == "VIEW")
          && !(pyStartsWith e.tableName "MSys"))).map (·.tableName)
  List.insertionSort (fun a b => pyStrLe a b = true) tables.dedup

/-- The `while True:` chunk loop of the GUI file's
`AccessToSQLite.convert_table` (access2sqlite_gui.py lines 120-162): same as
the CLI loop, except that after each batch write and `offset` update the
progress callback, when one was supplied, is invoked with
`(table_name, offset, total_tables, current_table)`; an exception it raises
propagates out of the loop. -/
def convertLoop (so : Bool) (t : SourceTable) (hasId : Bool) (chunkSize : Nat)
    (cb : Option ProgressCB) (totalTables currentTable : Nat) :
    Int → Bool → DestDB → List (List Row) → Nat → LoopOut
  | offset, _, dest, ws, 0 => .fuelOut dest ws offset
  | offset, firstChunk, dest, ws, fuel+1 =>
    match dfExcept so t hasId chunkSize offset firstChunk with
    | .error m => .raised dest ws offset m
    | .ok df =>
      if df.isEmpty then .done dest ws offset
      else
        let dest' := if firstChunk then destReplace dest t.name df
                     else destAppend dest t.name df
        let offset' := offset + df.length
        let ws' := ws ++ [df]
        match cb with
        | none =>
          convertLoop so t hasId chunkSize none totalTables currentTable
            offset' false dest' ws' fuel
        | some f =>
          match f t.name offset' totalTables currentTable with
          | some e => .raised dest' ws' offset' e
          | none =>
            convertLoop so t hasId chunkSize (some f) totalTables currentTable
              offset' false dest' ws' fuel

/-- The GUI file's `AccessToSQLite.convert_table`
(access2sqlite_gui.py lines 89-171), with its extra parameters
`progress_callback=None`, `total_tables=1`, `current_table=1`. -/
def convertTable (db : SourceDB) (tableName : String) (chunkSize : Nat)
    (cb : Option ProgressCB) (totalTables currentTable : Nat)
    (dest : DestDB) (fuel : Nat) : TableResult :=
  match findTable db tableName with
  | none =>
    { dest := dest, writes := [], rowsProcessed := 0,
      accessClosed := false, sqliteClosed := false,
      status := .raised ("no such table: " ++ tableName) }
  | some t =>
    match t.readError with
    | some m =>
      { dest := dest, writes := [], rowsProcessed := 0,
        accessClosed := false, sqliteClosed := false, status := .raised m }
    | none =>
      match convertLoop db.supportsOffset t (hasIdColumn t.columns) chunkSize
          cb totalTables currentTable 0 true dest [] fuel with
      | .done d w off =>
        { dest := d, writes := w, rowsProcessed := off,
          accessClosed := true, sqliteClosed := true, status := .ok }
      | .raised d w off m =>
        { dest := d, writes := w, rowsProcessed := off,
          accessClosed := false, sqliteClosed := false, status := .raised m }
      | .fuelOut d w off =>
        { dest := d, writes := w, rowsProcessed := off,
          accessClosed := false, sqliteClosed := false, status := .fuelOut }

/-- The per-table loop of the GUI file's `convert_all_tables`
(access2sqlite_gui.py lines 184-190): `enumerate(tables, 1)` makes the third
extra argument of `convert_table` the 1-based table number, the second the
total table count; an exception is logged and the loop continues. -/
def convertTables (db : SourceDB) (chunkSize : Nat) (cb : Option ProgressCB)
    (fuel : Nat) (total : Nat) :
    List String → Nat → DestDB → List (String × ExitStatus) → RunResult
  | [], _, dest, evs => { dest := dest, events := evs }
  | n :: rest, i, dest, evs =>
    let r := convertTable db n chunkSize cb total i dest fuel
    convertTables db chunkSize cb fuel total rest (i + 1) r.dest
      (evs ++ [(n, r.status)])

/-- The GUI file's `AccessToSQLite.convert_all_tables`
(access2sqlite_gui.py lines 173-190). -/
def convertAllTables (db : SourceDB) (chunkSize : Nat) (cb : Option ProgressCB)
    (dest : DestDB) (fuel : Nat) : RunResult :=
  let tables := getTableNames db
  convertTables db chunkSize cb fuel tables.length tables 1 dest []

/-- The GUI file's `AccessToSQLite.get_database_info`
(access2sqlite_gui.py lines 192-220); textually identical to the CLI copy. -/
def getDatabaseInfo (db : SourceDB) : List String × Nat :=
  let tables := getTableNames db
  let total := tables.foldl (fun acc n =>
    match findTable db n with
    | none => acc
    | some t =>
      match t.readError with
      | some _ => acc
      | none => acc + t.rows.length) 0
  (tables, total)

/-- Python `int(x)`: truncation toward zero, on the rationals. -/
def pyTrunc (q : ℚ) : ℤ :=
  if q < 0 then -⌊-q⌋ else ⌊q⌋

/-- The percentage computed by `AccessConverterGUI.update_progress`
(access2sqlite_gui.py lines 356-360), over exact rationals:
`table_progress = (current_table - 1) / total_tables * 100`
`table_progress += (1 / total_tables) * (rows_processed / 1000)`
then `min(100, int(table_progress))`. -/
def tableProgressQ (currentTable totalTables rowsProcessed : Nat) : ℚ :=
  ((currentTable : ℚ) - 1) / (totalTables : ℚ) * 100
    + (1 / (totalTables : ℚ)) * ((rowsProcessed : ℚ) / 1000)

/-- The value `update_progress` stores into the progress bar variable. -/
def updateProgress (currentTable totalTables rowsProcessed : Nat) : ℤ :=
  min 100 (pyTrunc (tableProgressQ currentTable totalTables rowsProcessed))

end A2SGui

/-! Concrete source databases used to settle individual claims. -/

/-- A table with an identity column whose values 5 and 10 are not the row
counts 1 and 2: identity-based paging must read it without duplicates. -/
def c1Table : SourceTable := ⟨"T", ["ID", "val"], [[5, 100], [10, 200]], none⟩

def c1Db : SourceDB := ⟨[⟨"T", "TABLE"⟩], [c1Table], false, true⟩

/-- A two-row table without an identity column. -/
def c2Table : SourceTable := ⟨"U", ["a"], [[1], [2]], none⟩

/-- A zero-row table. -/
def c2Empty : SourceTable := ⟨"E", ["a"], [], none⟩

def c2Db : SourceDB :=
  ⟨[⟨"U", "TABLE"⟩, ⟨"E", "TABLE"⟩], [c2Table, c2Empty], false, true⟩

/-- The catalog of the spec example: `["Zeta","MSysX","alpha","alpha"]`. -/
def c3Db : SourceDB :=
  ⟨[⟨"Zeta", "TABLE"⟩, ⟨"MSysX", "TABLE"⟩, ⟨"alpha", "TABLE"⟩,
    ⟨"alpha", "TABLE"⟩], [], false, true⟩

/-- A table whose identity column is spelled `ID`. -/
def c7TableID : SourceTable := ⟨"P", ["ID"], [[5], [10]], none⟩

/-- The same rows under a column spelled `Id`. -/
def c7TableId : SourceTable := ⟨"Q", ["Id"], [[5], [10]], none⟩

def c7Db : SourceDB :=
  ⟨[⟨"P", "TABLE"⟩, ⟨"Q", "TABLE"⟩], [c7TableID, c7TableId], false, true⟩

/-- First table of the cancellation scenario: identity values 3 and 6, so
with chunk size 1 its conversion takes several batches. -/
def c6T1 : SourceTable := ⟨"T1", ["ID"], [[3], [6]], none⟩

/-- Second table of the cancellation scenario. -/
def c6T2 : SourceTable := ⟨"T2", ["x"], [[7]], none⟩

def c6Db : SourceDB :=
  ⟨[⟨"T1", "TABLE"⟩, ⟨"T2", "TABLE"⟩], [c6T1, c6T2], false, true⟩

/-- `AccessConverterGUI.update_progress` as a progress callback, with the
Stop button pressed while the second batch of `T1` is being written: the
`stop_conversion` flag is observed set from the callback invocation at
`offset = 3` of `T1` onward (and stays set for every later table), at which
point the callback raises `Exception("Conversion stopped by user")`
(access2sqlite_gui.py lines 353-354). -/
def c6StopCB : ProgressCB := fun name off _ _ =>
  if name == "T1" && off < 3 then none
  else some "Conversion stopped by user"

/-- A table on which every read raises. -/
def c5Table : SourceTable := ⟨"T", ["a"], [[1]], some "boom"⟩

def c5Db : SourceDB := ⟨[⟨"T", "TABLE"⟩], [c5Table], false, true⟩

/-- A source whose primary catalog enumeration raises, holding a system
table (of type `TABLE`) and a view. -/
def c9Db : SourceDB :=
  ⟨[⟨"MSysACEs", "TABLE"⟩, ⟨"Orders", "VIEW"⟩], [], true, true⟩

/-- The succeeding table `A` of the claim-C4 scenario, with arbitrary
columns and rows. Its name sorts after `ATable` and before `ZTable`. -/
def c4ta (cols : List String) (rows : List Row) : SourceTable :=
  ⟨"MTable", cols, rows, none⟩

/-- The failing table `B` placed before `A` in the fixed order. -/
def c4failA (m : String) : SourceTable := ⟨"ATable", ["x"], [[0]], some m⟩

/-- The failing table `B` placed after `A` in the fixed order. -/
def c4failZ (m : String) : SourceTable := ⟨"ZTable", ["x"], [[0]], some m⟩

/-- Source with the failing table first in the fixed conversion order. -/
def c4dbPre (cols : List String) (rows : List Row) (m : String) (so : Bool) :
    SourceDB :=
  ⟨[⟨"ATable", "TABLE"⟩, ⟨"MTable", "TABLE"⟩],
   [c4failA m, c4ta cols rows], false, so⟩

/-- Source with the failing table second in the fixed conversion order. -/
def c4dbPost (cols : List String) (rows : List Row) (m : String) (so : Bool) :
    SourceDB :=
  ⟨[⟨"MTable", "TABLE"⟩, ⟨"ZTable", "TABLE"⟩],
   [c4ta cols rows, c4failZ m], false, so⟩

/-- Source holding the succeeding table alone. -/
def c4dbOnly (cols : List String) (rows : List Row) (so : Bool) : SourceDB :=
  ⟨[⟨"MTable", "TABLE"⟩], [c4ta cols rows], false, so⟩

/-- Source with one table `A` holding one row. -/
def c4dbX : SourceDB := ⟨[⟨"A", "TABLE"⟩], [⟨"A", ["v"], [[1]], none⟩], false, true⟩

/-- Source with one table `A` holding two rows. -/
def c4dbY : SourceDB :=
  ⟨[⟨"A", "TABLE"⟩], [⟨"A", ["v"], [[1], [2]], none⟩], false, true⟩

/-! Helper lemmas about the table-name ordering. -/

/-- `pyStrLe` agrees with the lexicographic order on strings. -/
theorem pyStrLe_iff (a b : String) : pyStrLe a b = true ↔ a ≤ b := by
  rw [String.le_iff_toList_le]
  simp only [pyStrLe, Bool.not_eq_true', decide_eq_false_iff_not]
  exact not_lt

instance : IsTrans String (fun a b => pyStrLe a b = true) :=
  ⟨fun a b c hab hbc =>
    (pyStrLe_iff a c).2
      (le_trans ((pyStrLe_iff a b).1 hab) ((pyStrLe_iff b c).1 hbc))⟩

instance : IsTotal String (fun a b => pyStrLe a b = true) :=
  ⟨fun a b => (le_total a b).imp (pyStrLe_iff a b).2 (pyStrLe_iff b a).2⟩

/-- `get_table_names` never returns a duplicate (both enumeration paths end
in `sorted(list(set(tables)))`). -/
theorem getTableNames_nodup (db : SourceDB) : (A2S.getTableNames db).Nodup :=
  ((List.perm_insertionSort _ _).nodup_iff).2 (List.nodup_dedup _)

/-- `get_table_names` returns its names sorted lexicographically. -/
theorem getTableNames_sorted (db : SourceDB) :
    (A2S.getTableNames db).Sorted (· ≤ ·) := by
  have hs : (A2S.getTableNames db).Sorted (fun a b => pyStrLe a b = true) :=
    List.sorted_insertionSort _ _
  exact hs.imp fun h => (pyStrLe_iff _ _).1 h

/-! Helper lemmas for the CLI/GUI equivalence. -/

/-- With no callback supplied, one step of the GUI chunk loop coincides with
the CLI chunk loop, whatever the table-count arguments. -/
theorem convertLoop_cb_none (so : Bool) (t : SourceTable) (hasId : Bool)
    (cs : Nat) (tt ct : Nat) :
    ∀ (fuel : Nat) (offset : Int) (fc : Bool) (dest : DestDB)
      (ws : List (List Row)),
      A2SGui.convertLoop so t hasId cs none tt ct offset fc dest ws fuel =
        A2S.convertLoop so t hasId cs offset fc dest ws fuel := by
  intro fuel
  induction fuel with
  | zero => intro offset fc dest ws; rfl
  | succ n ih =>
    intro offset fc dest ws
    simp only [A2SGui.convertLoop, A2S.convertLoop]
    cases hdf : dfExcept so t hasId cs offset fc with
    | error m => rfl
    | ok df =>
      by_cases hemp : df.isEmpty <;> simp [hemp, ih]

/-- With no callback supplied, the GUI `convert_table` coincides with the
CLI `convert_table`, whatever the table-count arguments. -/
theorem convertTable_cb_none (db : SourceDB) (name : String) (cs : Nat)
    (tt ct : Nat) (dest : DestDB) (fuel : Nat) :
    A2SGui.convertTable db name cs none tt ct dest fuel =
      A2S.convertTable db name cs dest fuel := by
  unfold A2SGui.convertTable A2S.convertTable
  simp only [convertLoop_cb_none]

/-- With no callback supplied, the GUI per-table loop coincides with the CLI
per-table loop, whatever the enumeration counters. -/
theorem convertTables_cb_none (db : SourceDB) (cs : Nat) (fuel : Nat)
    (total : Nat) :
    ∀ (names : List String) (i : Nat) (dest : DestDB)
      (evs : List (String × ExitStatus)),
      A2SGui.convertTables db cs none fuel total names i dest evs =
        A2S.convertTables db cs fuel names dest evs := by
  intro names
  induction names with
  | nil => intro i dest evs; rfl
  | cons n rest ih =>
    intro i dest evs
    simp only [A2SGui.convertTables, A2S.convertTables]
    rw [convertTable_cb_none]
    exact ih _ _ _

/-! Claim theorems. -/

/-- Claim C1: the claim states that each batch after the first selects
exactly the rows whose identity value exceeds the maximum identity seen so
far, so that the concatenation of all batches is strictly increasing with no
duplicates. The code instead issues an unbounded `SELECT *` as its first
batch and then filters `WHERE ID > offset` where `offset` is the cumulative
row count, not an identity value: on the two-row table with identity values
5 and 10 and batch size 1, the conversion succeeds but performs 9 batch
writes whose concatenation has 10 rows — the row with identity 5 written 4
times, the row with identity 10 five times — and is not strictly increasing. -/
theorem spec2_C1 :
    (A2S.convertTable c1Db "T" 1 [] 100).status = .ok ∧
    (A2S.convertTable c1Db "T" 1 [] 100).writes.length = 9 ∧
    ((A2S.convertTable c1Db "T" 1 [] 100).writes.flatten.map
        (rowId c1Table.columns)) = [5, 10, 5, 5, 5, 10, 10, 10, 10, 10] ∧
    ¬ List.Pairwise (· < ·)
      ((A2S.convertTable c1Db "T" 1 [] 100).writes.flatten.map
        (rowId c1Table.columns)) := by
  refine ⟨rfl, rfl, rfl, ?_⟩
  decide

/-- Claim C2: the claim states that `copy_table` on a table of R rows with
batch size b performs exactly `ceil(R / b)` non-empty batch writes of at
most b rows each. The code's first query carries no row limit, so on the
two-row table `U` with batch size 1 it performs a single batch write holding
both rows (the claim demands two writes of at most one row each); on the
empty table `E` it performs 0 writes and leaves the table absent, as the
claim states for R = 0. -/
theorem spec2_C2 :
    (A2S.convertTable c2Db "U" 1 [] 100).status = .ok ∧
    (A2S.convertTable c2Db "U" 1 [] 100).writes.map List.length = [2] ∧
    (A2S.convertTable c2Db "E" 1 [] 100).writes = [] ∧
    destLookup (A2S.convertTable c2Db "E" 1 [] 100).dest "E" = none := by
  exact ⟨rfl, rfl, rfl, rfl⟩

/-- Claim C6: the claim states that once the should-continue check fails
(Stop pressed after batch 2 of `T1`), the run completes the in-flight batch
write, performs no further batch reads or writes, and terminates with a
cancellation indication. In the code the callback raises a generic
`Exception`, which `convert_all_tables` catches like any per-table failure
and then proceeds: batches 1-2 of `T1` do remain committed and batch 3 of
`T1` never begins, but the next table `T2` is still fully read and written
before its own first callback raises, and the run completes normally with
both tables merely logged as failed — no cancellation indication exists. -/
theorem spec2_C6 :
    destLookup (A2SGui.convertAllTables c6Db 1 (some c6StopCB) [] 100).dest
        "T2" = some [[7]] ∧
    destLookup (A2SGui.convertAllTables c6Db 1 (some c6StopCB) [] 100).dest
        "T1" = some [[3], [6], [3]] ∧
    (A2SGui.convertAllTables c6Db 1 (some c6StopCB) [] 100).events =
      [("T1", .raised "Conversion stopped by user"),
       ("T2", .raised "Conversion stopped by user")] := by
  exact ⟨rfl, rfl, rfl⟩

/-- Claim C7, counterexample: the claim states that any capitalisation of
the conventional identity-column name (for example `Id`) selects
identity-based paging. The code tests `'ID' in columns or 'id' in columns`,
an exact-match check: `has_id_column` is false for `["Id"]`, and on two
tables holding the same rows (identity values 5 and 10) the `ID`-named table
is paged by identity (7 batch writes, with the re-reading this entails)
while the `Id`-named table is paged by position (a single batch write). -/
theorem spec2_C7_counterexample :
    hasIdColumn ["Id"] = false ∧
    (A2S.convertTable c7Db "P" 1000 [] 100).writes.length = 7 ∧
    (A2S.convertTable c7Db "Q" 1000 [] 100).writes.length = 1 := by
  exact ⟨rfl, rfl, rfl⟩

/-- Claim C7, as amended: `convert_table` selects identity-based paging
exactly when the probed column names contain the literal spelling `ID` or
the literal spelling `id`; every other capitalisation falls to
position-based paging. -/
theorem spec2_C7 :
    ∀ cols : List String,
      hasIdColumn cols = true ↔ "ID" ∈ cols ∨ "id" ∈ cols := by
  intro cols
  simp [hasIdColumn]

/-- Claim C3: on the primary enumeration path, for a catalog of tables and
views, `get_table_names` excludes exactly the names carrying the reserved
`MSys` prefix, returns no duplicates, and returns the names sorted in the
case-sensitive lexicographic order, whatever the catalog's native order; on
the spec's example catalog `["Zeta","MSysX","alpha","alpha"]` it returns
`["Zeta","alpha"]`. -/
theorem spec2_C3 :
    (∀ db : SourceDB, db.listingFails = false →
      (∀ e ∈ db.catalog, e.tableType = "TABLE" ∨ e.tableType = "VIEW") →
      (∀ n ∈ A2S.getTableNames db, pyStartsWith n "MSys" = false) ∧
        (A2S.getTableNames db).Nodup ∧
        (A2S.getTableNames db).Sorted (· ≤ ·) ∧
        (∀ n : String, n ∈ A2S.getTableNames db ↔
          (∃ e ∈ db.catalog, e.tableName = n) ∧
            pyStartsWith n "MSys" = false)) ∧
    A2S.getTableNames c3Db = ["Zeta", "alpha"] := by
  constructor
  · intro db hl htypes
    have hmem : ∀ n : String, n ∈ A2S.getTableNames db ↔
        (∃ e ∈ db.catalog, e.tableName = n) ∧
          pyStartsWith n "MSys" = false := by
      intro n
      unfold A2S.getTableNames
      rw [hl]
      simp only [Bool.false_eq_true, if_false, List.mem_insertionSort,
        List.mem_dedup, List.mem_map, List.mem_filter, Bool.and_eq_true,
        Bool.or_eq_true, beq_iff_eq, Bool.not_eq_true']
      constructor
      · rintro ⟨e, ⟨he, _, hns⟩, rfl⟩
        exact ⟨⟨e, he, rfl⟩, hns⟩
      · rintro ⟨⟨e, he, rfl⟩, hns⟩
        exact ⟨e, ⟨he, htypes e he, hns⟩, rfl⟩
    exact ⟨fun n hn => ((hmem n).1 hn).2, getTableNames_nodup db,
      getTableNames_sorted db, hmem⟩
  · rfl

/-- Claim C3, witness: the guarantees at the example catalog. -/
theorem spec2_C3_witness :
    (∀ n ∈ A2S.getTableNames c3Db, pyStartsWith n "MSys" = false) ∧
      (A2S.getTableNames c3Db).Sorted (· ≤ ·) := by
  have h := spec2_C3.1 c3Db rfl (by decide)
  exact ⟨h.1, h.2.2.1⟩

/-- Claim C9: when the primary catalog enumeration raises, the fallback
(`cursor.tables(tableType='TABLE')`) yields exactly the names of the
catalog's `TABLE`-typed objects — without the `MSys` exclusion and without
the TABLE/VIEW type check of the primary path, so system tables are
returned and views are not. -/
theorem spec2_C9 :
    ∀ db : SourceDB, db.listingFails = true →
      ∀ n : String,
        n ∈ A2S.getTableNames db ↔
          ∃ e ∈ db.catalog, e.tableType = "TABLE" ∧ e.tableName = n := by
  intro db hl n
  unfold A2S.getTableNames
  rw [hl]
  simp only [if_true, List.mem_insertionSort, List.mem_dedup, List.mem_map,
    List.mem_filter, beq_iff_eq]
  constructor
  · rintro ⟨e, ⟨he, ht⟩, rfl⟩
    exact ⟨e, he, ht, rfl⟩
  · rintro ⟨e, he, ht, rfl⟩
    exact ⟨e, ⟨he, ht⟩, rfl⟩

/-- Claim C9, witness: on the fallback path, the system table `MSysACEs`
(type `TABLE`) is returned. -/
theorem spec2_C9_witness : "MSysACEs" ∈ A2S.getTableNames c9Db :=
  (spec2_C9 c9Db rfl "MSysACEs").2 ⟨⟨"MSysACEs", "TABLE"⟩, by decide, rfl, rfl⟩

/-- Claim C4, counterexample: the claim states `convert_all_tables` returns
an outcome map associating each table name with its written row count or its
recorded failure. The Python function has no `return` statement: it returns
`None` for every input, so its return value on a one-row source equals its
return value on a two-row source even though the two runs write observably
different destinations — no outcome map (in particular no row count) is
returned; failures are only written to the log. -/
theorem spec2_C4_counterexample :
    A2S.convertAllTablesRet c4dbX 1000 [] 10 =
        A2S.convertAllTablesRet c4dbY 1000 [] 10 ∧
    (A2S.convertAllTables c4dbX 1000 [] 10).dest ≠
        (A2S.convertAllTables c4dbY 1000 [] 10).dest := by
  exact ⟨rfl, by decide⟩

/-- Claim C4, as amended: `convert_all_tables` catches each table's
exception, records it in the log, and proceeds, so the succeeding table `A`
is converted exactly as it would be alone, whether the failing table `B`
precedes or follows it in the fixed order: the run's destination equals the
destination of converting `A` alone, and the run's event sequence logs `B`
as failed with its original error and `A` with its standalone outcome. No
outcome map is returned (the function returns `None`). -/
theorem spec2_C4 :
    ∀ (cols : List String) (rows : List Row) (m : String) (so : Bool)
      (cs fuel : Nat),
      (A2S.convertAllTables (c4dbPre cols rows m so) cs [] fuel).dest =
          (A2S.convertTable (c4dbOnly cols rows so) "MTable" cs [] fuel).dest ∧
      (A2S.convertAllTables (c4dbPre cols rows m so) cs [] fuel).events =
          [("ATable", .raised m),
           ("MTable",
             (A2S.convertTable (c4dbOnly cols rows so) "MTable" cs [] fuel).status)] ∧
      (A2S.convertAllTables (c4dbPost cols rows m so) cs [] fuel).dest =
          (A2S.convertTable (c4dbOnly cols rows so) "MTable" cs [] fuel).dest ∧
      (A2S.convertAllTables (c4dbPost cols rows m so) cs [] fuel).events =
          [("MTable",
             (A2S.convertTable (c4dbOnly cols rows so) "MTable" cs [] fuel).status),
           ("ZTable", .raised m)] := by
  intro cols rows m so cs fuel
  exact ⟨rfl, rfl, rfl, rfl⟩

/-- Claim C8, as amended: the code multiplies only the completed-tables
fraction by 100, adding the raw (un-percentaged) `(1 / total_tables) *
(rows_processed / 1000)` term, truncates, and clamps from above at 100 only;
nevertheless, for every update with `current_table ≥ 1` (as
`convert_all_tables` always supplies) the stored value lies in `[0, 100]`. -/
theorem spec2_C8 :
    ∀ currentTable totalTables rowsProcessed : Nat,
      1 ≤ currentTable →
      0 ≤ A2SGui.updateProgress currentTable totalTables rowsProcessed ∧
      A2SGui.updateProgress currentTable totalTables rowsProcessed ≤ 100 := by
  intro ct tt rp h
  have hq : 0 ≤ A2SGui.tableProgressQ ct tt rp := by
    have h1 : (0 : ℚ) ≤ (ct : ℚ) - 1 := by
      have : (1 : ℚ) ≤ (ct : ℚ) := by exact_mod_cast h
      linarith
    have h2 : (0 : ℚ) ≤ (tt : ℚ) := by positivity
    have h3 : (0 : ℚ) ≤ (rp : ℚ) := by positivity
    unfold A2SGui.tableProgressQ
    have ha : (0 : ℚ) ≤ ((ct : ℚ) - 1) / (tt : ℚ) * 100 :=
      mul_nonneg (div_nonneg h1 h2) (by norm_num)
    have hb : (0 : ℚ) ≤ (1 / (tt : ℚ)) * ((rp : ℚ) / 1000) :=
      mul_nonneg (by positivity) (div_nonneg h3 (by norm_num))
    linarith
  constructor
  · unfold A2SGui.updateProgress A2SGui.pyTrunc
    rw [if_neg (not_lt.2 hq)]
    exact le_min (by norm_num) (Int.floor_nonneg.2 hq)
  · exact min_le_left _ _

/-- Claim C8, witness: the bounds hold at table 2 of 4 with 250 rows. -/
theorem spec2_C8_witness :
    0 ≤ A2SGui.updateProgress 2 4 250 ∧ A2SGui.updateProgress 2 4 250 ≤ 100 :=
  spec2_C8 2 4 250 (by norm_num)

/-- Claim C10: the `AccessToSQLite` class duplicated in the two source files
is behaviourally equivalent. For every source database, table name, chunk
size, initial destination and fuel, `get_table_names`, `get_database_info`,
`convert_table` (with no progress callback supplied, so with the GUI copy's
defaults `progress_callback=None`, `total_tables=1`, `current_table=1`) and
`convert_all_tables` of the CLI file produce the same results — including
the same destination state and the same sequence of batch writes — as those
of the GUI file. -/
theorem spec2_C10 :
    ∀ (db : SourceDB) (name : String) (cs : Nat) (dest : DestDB) (fuel : Nat),
      A2S.getTableNames db = A2SGui.getTableNames db ∧
      A2S.getDatabaseInfo db = A2SGui.getDatabaseInfo db ∧
      A2S.convertTable db name cs dest fuel =
        A2SGui.convertTable db name cs none 1 1 dest fuel ∧
      A2S.convertAllTables db cs dest fuel =
        A2SGui.convertAllTables db cs none dest fuel := by
  intro db name cs dest fuel
  refine ⟨rfl, rfl, (convertTable_cb_none db name cs 1 1 dest fuel).symm, ?_⟩
  unfold A2S.convertAllTables A2SGui.convertAllTables
  rw [convertTables_cb_none]
  rfl

/-- Claim C5, counterexample: the claim states that an exception raised
while reading is re-raised as a `TableConversionError` carrying the table
name and cause, and that both handles are released on every exit path. On a
table whose read raises `Exception("boom")`, the exception escaping
`convert_table` is the original, unwrapped `boom` (the `except` block only
logs and re-raises; no `TableConversionError` class exists in the code), and
neither the Access connection nor the SQLite connection is closed, since the
two `close()` calls sit on the normal path only. -/
theorem spec2_C5_counterexample :
    (A2S.convertTable c5Db "T" 1000 [] 100).status = .raised "boom" ∧
    (A2S.convertTable c5Db "T" 1000 [] 100).accessClosed = false ∧
    (A2S.convertTable c5Db "T" 1000 [] 100).sqliteClosed = false := by
  exact ⟨rfl, rfl, rfl⟩

/-- Claim C5, as amended: `convert_table` closes its two connections only on
the normal exit path; when the call raises, the escaping exception is the
original one, unwrapped (in particular, for a table whose reads raise with
message `m`, the escaping exception carries exactly `m`), and neither
connection is closed. -/
theorem spec2_C5 :
    (∀ (db : SourceDB) (name : String) (cs : Nat) (dest : DestDB) (fuel : Nat),
        (A2S.convertTable db name cs dest fuel).status = .ok →
        (A2S.convertTable db name cs dest fuel).accessClosed = true ∧
        (A2S.convertTable db name cs dest fuel).sqliteClosed = true) ∧
    (∀ (db : SourceDB) (name : String) (cs : Nat) (dest : DestDB) (fuel : Nat)
        (t : SourceTable) (m : String),
        findTable db name = some t → t.readError = some m →
        (A2S.convertTable db name cs dest fuel).status = .raised m ∧
        (A2S.convertTable db name cs dest fuel).accessClosed = false ∧
        (A2S.convertTable db name cs dest fuel).sqliteClosed = false) := by
  constructor
  · intro db name cs dest fuel
    unfold A2S.convertTable
    split
    · intro h
      simp at h
    · split
      · intro h
        simp at h
      · split
        · intro h
          exact ⟨rfl, rfl⟩
        · intro h
          simp at h
        · intro h
          simp at h
  · intro db name cs dest fuel t m hf he
    simp [A2S.convertTable, hf, he]

/-- Claim C5, witness: the amended statement at the concrete table whose
reads raise `boom` and at a concrete normal conversion. -/
theorem spec2_C5_witness :
    ((A2S.convertTable c2Db "U" 1 [] 100).accessClosed = true ∧
      (A2S.convertTable c2Db "U" 1 [] 100).sqliteClosed = true) ∧
    ((A2S.convertTable c5Db "T" 1 [] 100).status = .raised "boom" ∧
      (A2S.convertTable c5Db "T" 1 [] 100).accessClosed = false ∧
      (A2S.convertTable c5Db "T" 1 [] 100).sqliteClosed = false) :=
  ⟨spec2_C5.1 c2Db "U" 1 [] 100 rfl,
   spec2_C5.2 c5Db "T" 1 [] 100 c5Table "boom" rfl rfl⟩

/-- Claim C8, counterexample: the claim states the reported percentage is
`((tables_completed / total_tables) + (rows_in_current_table / 1000) /
total_tables)` expressed as a percentage. With 0 completed tables out of 1
and 500 rows processed, that formula gives 50, but the code multiplies only
the completed-tables term by 100 (`(current_table - 1) / total_tables * 100
+ (1 / total_tables) * (rows_processed / 1000)`), yielding 0.5, truncated
to 0. -/
theorem spec2_C8_counterexample :
    A2SGui.updateProgress 1 1 500 = 0 ∧
    (((1 : ℚ) - 1) / 1 + ((500 : ℚ) / 1000) / 1) * 100 = 50 := by
  constructor
  · have h : A2SGui.tableProgressQ 1 1 500 = 1 / 2 := by
      norm_num [A2SGui.tableProgressQ]
    rw [A2SGui.updateProgress, A2SGui.pyTrunc, h]
    norm_num
  · norm_num
